/-
  Verification of the gaming-server daemon core (refactor-g-server).

  Shallow embedding of the C sources:
    - server_state_machine.c : orchestrator FSM (states, event setters, update)
    - ps5_wake.c             : wake controller (send with bounded retries, verify)
    - cec_monitor.c          : power monitor polling loop (debounce, degradation)
    - ps5_detector.c         : presence detector (validators, JSON presence cache)

  Pure functions are translated directly; stateful C code becomes explicit
  state passing on context records; side effects (LED indicator updates and
  state-enter callbacks) are modelled as an explicit effect trace; the
  platform collaborator and the filesystem are modelled as inputs.
-/
import Mathlib

set_option linter.unusedVariables false

/-! Section: Enumerations (cec_monitor.h / server_state_machine.h) -/

/-- The `ps5_power_state_t` from cec_monitor.h. -/
inductive ps5_power_state where
  | unknown
  | off
  | standby
  | on
  deriving DecidableEq, Repr

/-- The `ps5_network_status_t` from server_state_machine.h. -/
inductive ps5_network_status where
  | unknown
  | offline
  | online
  deriving DecidableEq, Repr

/-- The `server_state_t` from server_state_machine.h. -/
inductive server_state where
  | init
  | monitoring
  | ps5_detected
  | client_connected
  | waking_ps5
  | error
  deriving DecidableEq, Repr

/-- The `platform_led_state_t` values used by map_server_state_to_led. -/
inductive platform_led_state where
  | led_off
  | led_ps5_off
  | led_ps5_on
  | led_vpn_connected
  | led_waking
  | led_error
  deriving DecidableEq, Repr

/-! Section: Orchestrator context (server_state_machine.h `server_context_t`)

The callback function pointer is modelled by an optional opaque token;
`user_data` carries no information relevant to the claims and is omitted.
The `config` field is carried verbatim. -/

/-- The `server_config_t` from server_state_machine.h. -/
structure server_config where
  ws_port : Int
  ps5_subnet : String
  cache_path : String
  deriving DecidableEq, Repr

/-- The `server_context_t` from server_state_machine.h (callback pointer modelled
as an optional token identifying the registered callback). -/
structure server_context where
  config : server_config
  current_state : server_state
  last_state : server_state
  ps5_power : ps5_power_state
  ps5_network : ps5_network_status
  client_count : Nat
  wake_requested : Bool
  wake_completed : Bool
  error_count : Nat
  on_state_enter : Option Nat
  deriving DecidableEq, Repr

/-- Observable side effects of the state machine: LED indicator updates
(`platform_set_led_state`) and invocations of the registered state-enter
callback (identified by its token, with the state it receives). -/
inductive sm_effect where
  | set_led (l : platform_led_state)
  | state_enter (cb : Nat) (s : server_state)
  deriving DecidableEq, Repr

/-! Section: server_state_machine.c -/

/-- The `map_server_state_to_led` from server_state_machine.c. -/
def map_server_state_to_led (state : server_state) : platform_led_state :=
  match state with
  | .init => .led_off
  | .monitoring => .led_ps5_off
  | .ps5_detected => .led_ps5_on
  | .client_connected => .led_vpn_connected
  | .waking_ps5 => .led_waking
  | .error => .led_error

/-- The `server_sm_create` from server_state_machine.c (the NULL-config and
allocation-failure paths return no context; otherwise the zeroed context
with Init state and the initial LED update). -/
def server_sm_create (config : server_config) : server_context × List sm_effect :=
  ({ config := config
     current_state := .init
     last_state := .init
     ps5_power := .unknown
     ps5_network := .unknown
     client_count := 0
     wake_requested := false
     wake_completed := false
     error_count := 0
     on_state_enter := none },
   [.set_led (map_server_state_to_led .init)])

/-- The `server_sm_transition` from server_state_machine.c: record previous
state, set the new state, update the LED, fire the state-enter callback
when one is registered. -/
def server_sm_transition (ctx : server_context) (new_state : server_state) :
    server_context × List sm_effect :=
  let ctx1 := { ctx with last_state := ctx.current_state, current_state := new_state }
  (ctx1,
   [.set_led (map_server_state_to_led new_state)] ++
   (match ctx.on_state_enter with
    | some cb => [.state_enter cb new_state]
    | none => []))

/-- The `server_sm_update` from server_state_machine.c: the priority-ordered
transition cascade; in WakingPS5 a completed wake clears both wake flags;
a transition happens only when the computed next state differs. -/
def server_sm_update (ctx : server_context) : server_context × List sm_effect :=
  let step : server_context × server_state :=
    match ctx.current_state with
    | .init => (ctx, .monitoring)
    | .monitoring =>
        (ctx,
         if ctx.ps5_power = .on then .ps5_detected
         else if ctx.client_count > 0 then .client_connected
         else if ctx.error_count > 5 then .error
         else .monitoring)
    | .ps5_detected =>
        (ctx,
         if ctx.ps5_power ≠ .on then .monitoring
         else if ctx.client_count > 0 then .client_connected
         else .ps5_detected)
    | .client_connected =>
        (ctx,
         if ctx.wake_requested ∧ ctx.ps5_power ≠ .on then .waking_ps5
         else if ctx.client_count = 0 then
           (if ctx.ps5_power = .on then .ps5_detected else .monitoring)
         else .client_connected)
    | .waking_ps5 =>
        if ctx.wake_completed then
          ({ ctx with wake_completed := false, wake_requested := false }, .client_connected)
        else if ctx.error_count > 3 then (ctx, .error)
        else (ctx, .waking_ps5)
    | .error =>
        (ctx, if ctx.error_count = 0 then .init else .error)
  if step.2 ≠ ctx.current_state then server_sm_transition step.1 step.2
  else (step.1, [])

/-- The `server_sm_get_state` from server_state_machine.c (total version on a
valid context; the NULL case is covered by the Option-lifted wrapper). -/
def server_sm_get_state (ctx : server_context) : server_state :=
  ctx.current_state

/-- The `server_sm_on_ps5_power_changed` from server_state_machine.c. -/
def server_sm_on_ps5_power_changed (ctx : server_context) (power : ps5_power_state) :
    server_context × List sm_effect :=
  ({ ctx with ps5_power := power }, [])

/-- The `server_sm_on_ps5_network_changed` from server_state_machine.c. -/
def server_sm_on_ps5_network_changed (ctx : server_context) (status : ps5_network_status) :
    server_context × List sm_effect :=
  ({ ctx with ps5_network := status }, [])

/-- The `server_sm_on_client_connected` from server_state_machine.c (the
client id is only logged). -/
def server_sm_on_client_connected (ctx : server_context) (client_id : Int) :
    server_context × List sm_effect :=
  ({ ctx with client_count := ctx.client_count + 1 }, [])

/-- The `server_sm_on_client_disconnected` from server_state_machine.c:
decrement floored at zero. -/
def server_sm_on_client_disconnected (ctx : server_context) (client_id : Int) :
    server_context × List sm_effect :=
  (if ctx.client_count > 0 then { ctx with client_count := ctx.client_count - 1 }
   else ctx, [])

/-- The `server_sm_on_wake_requested` from server_state_machine.c. -/
def server_sm_on_wake_requested (ctx : server_context) :
    server_context × List sm_effect :=
  ({ ctx with wake_requested := true }, [])

/-- The `server_sm_on_wake_completed` from server_state_machine.c:
`ctx->wake_completed = success; if (!success) ctx->error_count++;`. -/
def server_sm_on_wake_completed (ctx : server_context) (success : Bool) :
    server_context × List sm_effect :=
  let ctx1 := { ctx with wake_completed := success }
  (if success then ctx1 else { ctx1 with error_count := ctx1.error_count + 1 }, [])

/-- The `server_sm_on_error` from server_state_machine.c. -/
def server_sm_on_error (ctx : server_context) : server_context × List sm_effect :=
  ({ ctx with error_count := ctx.error_count + 1 }, [])

/-- The `server_sm_reset` from server_state_machine.c: restore Init-equivalent
defaults (callback registration is kept) and re-update the LED. -/
def server_sm_reset (ctx : server_context) : server_context × List sm_effect :=
  ({ ctx with
      current_state := .init
      last_state := .init
      error_count := 0
      client_count := 0
      ps5_power := .unknown
      ps5_network := .unknown
      wake_requested := false
      wake_completed := false },
   [.set_led (map_server_state_to_led .init)])

/-- The `server_sm_set_state_callback` from server_state_machine.c. -/
def server_sm_set_state_callback (ctx : server_context) (callback : Option Nat) :
    server_context × List sm_effect :=
  ({ ctx with on_state_enter := callback }, [])

/-! Section: Option-lifted public interface (NULL-context tolerance)

Every public function of server_state_machine.c begins with
`if (ctx == NULL) return ...;`.  A NULL context is modelled as `none`. -/

/-- NULL-tolerant `server_sm_update`. -/
def server_sm_update_opt (ctx : Option server_context) :
    Option server_context × List sm_effect :=
  match ctx with
  | none => (none, [])
  | some c => let r := server_sm_update c; (some r.1, r.2)

/-- NULL-tolerant `server_sm_transition`. -/
def server_sm_transition_opt (ctx : Option server_context) (new_state : server_state) :
    Option server_context × List sm_effect :=
  match ctx with
  | none => (none, [])
  | some c => let r := server_sm_transition c new_state; (some r.1, r.2)

/-- NULL-tolerant `server_sm_get_state`: `if (ctx == NULL) return SERVER_STATE_ERROR;`. -/
def server_sm_get_state_opt (ctx : Option server_context) : server_state :=
  match ctx with
  | none => .error
  | some c => server_sm_get_state c

/-- NULL-tolerant `server_sm_on_ps5_power_changed`. -/
def server_sm_on_ps5_power_changed_opt (ctx : Option server_context)
    (power : ps5_power_state) : Option server_context × List sm_effect :=
  match ctx with
  | none => (none, [])
  | some c => let r := server_sm_on_ps5_power_changed c power; (some r.1, r.2)

/-- NULL-tolerant `server_sm_on_ps5_network_changed`. -/
def server_sm_on_ps5_network_changed_opt (ctx : Option server_context)
    (status : ps5_network_status) : Option server_context × List sm_effect :=
  match ctx with
  | none => (none, [])
  | some c => let r := server_sm_on_ps5_network_changed c status; (some r.1, r.2)

/-- NULL-tolerant `server_sm_on_client_connected`. -/
def server_sm_on_client_connected_opt (ctx : Option server_context)
    (client_id : Int) : Option server_context × List sm_effect :=
  match ctx with
  | none => (none, [])
  | some c => let r := server_sm_on_client_connected c client_id; (some r.1, r.2)

/-- NULL-tolerant `server_sm_on_client_disconnected`. -/
def server_sm_on_client_disconnected_opt (ctx : Option server_context)
    (client_id : Int) : Option server_context × List sm_effect :=
  match ctx with
  | none => (none, [])
  | some c => let r := server_sm_on_client_disconnected c client_id; (some r.1, r.2)

/-- NULL-tolerant `server_sm_on_wake_requested`. -/
def server_sm_on_wake_requested_opt (ctx : Option server_context) :
    Option server_context × List sm_effect :=
  match ctx with
  | none => (none, [])
  | some c => let r := server_sm_on_wake_requested c; (some r.1, r.2)

/-- NULL-tolerant `server_sm_on_wake_completed`. -/
def server_sm_on_wake_completed_opt (ctx : Option server_context) (success : Bool) :
    Option server_context × List sm_effect :=
  match ctx with
  | none => (none, [])
  | some c => let r := server_sm_on_wake_completed c success; (some r.1, r.2)

/-- NULL-tolerant `server_sm_on_error`. -/
def server_sm_on_error_opt (ctx : Option server_context) :
    Option server_context × List sm_effect :=
  match ctx with
  | none => (none, [])
  | some c => let r := server_sm_on_error c; (some r.1, r.2)

/-- NULL-tolerant `server_sm_reset`. -/
def server_sm_reset_opt (ctx : Option server_context) :
    Option server_context × List sm_effect :=
  match ctx with
  | none => (none, [])
  | some c => let r := server_sm_reset c; (some r.1, r.2)

/-- NULL-tolerant `server_sm_set_state_callback`. -/
def server_sm_set_state_callback_opt (ctx : Option server_context)
    (callback : Option Nat) : Option server_context × List sm_effect :=
  match ctx with
  | none => (none, [])
  | some c => let r := server_sm_set_state_callback c callback; (some r.1, r.2)

/-! Section: ps5_wake.c : wake controller

The platform collaborator's `platform_send_ps5_wake` is modelled as a
function from the attempt index to its outcome; `time(NULL)` as a `now`
parameter; the registered callback as the trace of boolean values it is
invoked with (in order). -/

/-- The `WAKE_MAX_RETRIES` from ps5_wake.c. -/
def WAKE_MAX_RETRIES : Nat := 3

/-- The `WAKE_VERIFY_DELAY_MS` from ps5_wake.c (the fixed settle delay). -/
def WAKE_VERIFY_DELAY_MS : Nat := 3000

/-- The `platform_ps5_power_t` results of `platform_get_ps5_power` (the default
branch of the switches maps anything else to Unknown, so four values
suffice). -/
inductive platform_ps5_power where
  | on
  | standby
  | off
  | unknown
  deriving DecidableEq, Repr

/-- The `ps5_wake_context_t` from ps5_wake.c (callback pointer not carried:
callback invocations are returned as a trace). -/
structure ps5_wake_context where
  initialized : Bool
  retry_count : Nat
  last_wake_time : Option Nat
  deriving DecidableEq, Repr

/-- Result of `ps5_wake_send`: C return value, updated controller state,
the trace of callback invocations, and the number of platform wake
attempts performed. -/
structure ps5_wake_send_result where
  ret : Int
  ctx : ps5_wake_context
  callbacks : List Bool
  attempts : Nat
  deriving DecidableEq, Repr

/-- The retry loop of `ps5_wake_send`, recursing on the number of loop
iterations left (`WAKE_MAX_RETRIES - retry`); `retry` counts attempts
already made.  On a successful attempt: record timestamp, reset retry
counter, fire callback `true`, return 0.  When the loop exhausts: fire
callback `false`, return -1. -/
def ps5_wake_send_loop (outcomes : Nat → Bool) (now : Nat) :
    Nat → Nat → ps5_wake_context → ps5_wake_send_result
  | 0, _retry, ctx => ⟨-1, ctx, [false], 0⟩
  | fuel + 1, retry, ctx =>
      if outcomes retry then
        ⟨0, { ctx with last_wake_time := some now, retry_count := 0 }, [true], 1⟩
      else
        let ctx1 := { ctx with retry_count := retry + 1 }
        let r := ps5_wake_send_loop outcomes now fuel (retry + 1) ctx1
        { r with attempts := r.attempts + 1 }

/-- The `ps5_wake_send` from ps5_wake.c: uninitialized controller returns -1
with no attempt and no callback; otherwise the bounded retry loop runs
starting at retry index 0. -/
def ps5_wake_send (ctx : ps5_wake_context) (now : Nat) (outcomes : Nat → Bool) :
    ps5_wake_send_result :=
  if ctx.initialized then ps5_wake_send_loop outcomes now WAKE_MAX_RETRIES 0 ctx
  else ⟨-1, ctx, [], 0⟩

/-- The `ps5_wake_verify` from ps5_wake.c: `state_valid` models a non-NULL out
pointer, `power` the single `platform_get_ps5_power` query made after the
settle delay.  Returns the C return value and the value written through
the out pointer (`none` when nothing is written). -/
def ps5_wake_verify (initialized : Bool) (state_valid : Bool)
    (power : platform_ps5_power) : Int × Option ps5_power_state :=
  if ¬initialized ∨ ¬state_valid then (-1, none)
  else
    match power with
    | .on => (0, some .on)
    | .standby => (0, some .standby)
    | .off => (-1, some .off)
    | .unknown => (-1, some .unknown)

/-! Section: cec_monitor.c : power monitor polling loop

One iteration of `monitor_thread_func`'s loop body is a pure step on the
monitor context, fed the result of `query_power_status` (Unknown = query
failure) and the current time; it returns the updated context and the
callback invocation produced (the state published by `change_ps5_state`),
if any. -/

/-- The `CEC_MAX_CONSECUTIVE_ERRORS` from cec_monitor.c. -/
def CEC_MAX_CONSECUTIVE_ERRORS : Nat := 5

/-- The monitor-owned state of `cec_monitor_context_t` touched by the
polling loop. -/
structure cec_monitor_context where
  current_state : ps5_power_state
  last_state : ps5_power_state
  last_update_time : Nat
  consecutive_errors : Nat
  deriving DecidableEq, Repr

/-- The `change_ps5_state` from cec_monitor.c: no-op when the value is
unchanged; otherwise publish the new value, remember the old one and the
time, and fire the callback with the new state. -/
def change_ps5_state (ctx : cec_monitor_context) (now : Nat)
    (new_state : ps5_power_state) : cec_monitor_context × Option ps5_power_state :=
  if new_state = ctx.current_state then (ctx, none)
  else
    ({ ctx with
        current_state := new_state
        last_state := ctx.current_state
        last_update_time := now },
     some new_state)

/-- One iteration of the polling loop body in `monitor_thread_func`:
a successful (non-Unknown) query resets the error counter and publishes
on change; a failed query increments it, and on reaching the threshold
degrades the published state to Unknown (only when not already Unknown). -/
def monitor_poll_step (ctx : cec_monitor_context) (now : Nat)
    (state : ps5_power_state) : cec_monitor_context × Option ps5_power_state :=
  if state ≠ .unknown then
    let ctx1 := { ctx with consecutive_errors := 0 }
    if state ≠ ctx1.current_state then change_ps5_state ctx1 now state
    else (ctx1, none)
  else
    let ctx1 := { ctx with consecutive_errors := ctx.consecutive_errors + 1 }
    if ctx1.consecutive_errors ≥ CEC_MAX_CONSECUTIVE_ERRORS then
      if ctx1.current_state ≠ .unknown then change_ps5_state ctx1 now .unknown
      else (ctx1, none)
    else (ctx1, none)

/-- Iterate `monitor_poll_step` over a sequence of timed poll results,
collecting the callback invocations in order. -/
def monitor_run (ctx : cec_monitor_context) :
    List (Nat × ps5_power_state) → cec_monitor_context × List ps5_power_state
  | [] => (ctx, [])
  | (now, s) :: rest =>
      let r := monitor_poll_step ctx now s
      let rr := monitor_run r.1 rest
      (rr.1,
       (match r.2 with
        | some v => [v]
        | none => []) ++ rr.2)

/-! Section: ps5_detector.c : validators -/

/-- The `isxdigit` over the ASCII hexadecimal digits, as used by
`ps5_detector_validate_mac`. -/
def is_xdigit (c : Char) : Bool :=
  c.isDigit || ('a' ≤ c && c ≤ 'f') || ('A' ≤ c && c ≤ 'F')

/-- The `ps5_detector_validate_mac` from ps5_detector.c: exactly 17 characters;
index `i` holds ':' when `i % 3 = 2` and a hexadecimal digit otherwise. -/
def ps5_detector_validate_mac (mac : String) : Bool :=
  mac.data.length = 17 &&
  (List.range 17).all (fun i =>
    match mac.data.get? i with
    | some c => if i % 3 = 2 then c = ':' else is_xdigit c
    | none => false)

/-- The scanning state of `ps5_detector_validate_ip`'s character loop. -/
structure ip_scan_state where
  octet_count : Nat
  current_octet : Nat
  digits : Nat
  has_digit : Bool
  deriving DecidableEq, Repr

/-- One character step of `ps5_detector_validate_ip`'s loop; `none` is an
early `return false`. -/
def ip_scan_step (st : ip_scan_state) (c : Char) : Option ip_scan_state :=
  if c = '.' then
    if !st.has_digit || st.digits = 0 || st.digits > 3 then none
    else if st.octet_count ≥ 3 then none
    else if st.current_octet > 255 then none
    else some ⟨st.octet_count + 1, 0, 0, false⟩
  else if c.isDigit then
    let v := st.current_octet * 10 + (c.toNat - 48)
    if v > 255 then none
    else some ⟨st.octet_count, v, st.digits + 1, true⟩
  else none

/-- Run the character loop of `ps5_detector_validate_ip`. -/
def ip_scan : ip_scan_state → List Char → Option ip_scan_state
  | st, [] => some st
  | st, c :: cs =>
      match ip_scan_step st c with
      | none => none
      | some st1 => ip_scan st1 cs

/-- The `ps5_detector_validate_ip` from ps5_detector.c: empty string rejected;
then the character loop followed by the final-octet and octet-count
checks. -/
def ps5_detector_validate_ip (ip : String) : Bool :=
  if ip.data.length = 0 then false
  else
    match ip_scan ⟨0, 0, 0, false⟩ ip.data with
    | none => false
    | some st =>
        if !st.has_digit || st.digits = 0 || st.digits > 3 || st.current_octet > 255 then
          false
        else decide (st.octet_count = 3)

/-! Section: ps5_detector.c : presence cache -/

/-- Detector error codes from ps5_detector.h. -/
def PS5_DETECT_OK : Int := 0
def PS5_DETECT_ERROR_NOT_INIT : Int := -1
def PS5_DETECT_ERROR_INVALID_PARAM : Int := -3
def PS5_DETECT_ERROR_CACHE_INVALID : Int := -4

/-- The `PS5_CACHE_MAX_AGE` from ps5_detector.h (seconds). -/
def PS5_CACHE_MAX_AGE : Int := 3600

/-- A JSON value as far as the cache format uses cJSON: strings, numbers,
booleans, and anything else (null, arrays, objects) collapsed to
`jother`, which fails every `cJSON_Is*` test the code performs. -/
inductive jval where
  | jstr (s : String)
  | jnum (n : Int)
  | jbool (b : Bool)
  | jother
  deriving DecidableEq, Repr

/-- A parsed cache file: the fields of the top-level JSON object.  The
whole file is `none` when it is absent, unreadable, empty, larger than
the 4096-byte bound, or fails `cJSON_Parse`. -/
def cache_file := Option (List (String × jval))

/-- The `ps5_info_t` from ps5_detector.h (`ip` is a `char[16]`, `mac` a
`char[18]`, so well-formed values carry at most 15 and 17 characters). -/
structure ps5_info where
  ip : String
  mac : String
  last_seen : Int
  online : Bool
  deriving DecidableEq, Repr

/-- The zero-initialized `ps5_info_t` (`memset(info, 0, ...)`). -/
def ps5_info_zero : ps5_info := ⟨"", "", 0, false⟩

/-- Truncating string copy, as `snprintf(dst, n+1, "%s", src)` keeps the
first `n` characters. -/
def str_copy_trunc (s : String) (n : Nat) : String := ⟨s.data.take n⟩

/-- The `cJSON_GetObjectItem` on the top-level object (lookup by field
name; `none` doubles as cJSON's NULL result). -/
def jlookup (obj : List (String × jval)) (key : String) : Option jval :=
  match obj.find? (fun p => p.1 = key) with
  | some p => some p.2
  | none => none

/-- Combined `item != NULL && cJSON_IsString(item)`. -/
def cjson_is_string : Option jval → Bool
  | some (.jstr _) => true
  | _ => false

/-- Combined `item != NULL && cJSON_IsNumber(item)`. -/
def cjson_is_number : Option jval → Bool
  | some (.jnum _) => true
  | _ => false

/-- Combined `item != NULL && cJSON_IsBool(item)` (used only by the
spec-side structural-completeness predicate). -/
def cjson_is_bool : Option jval → Bool
  | some (.jbool _) => true
  | _ => false

/-- Combined `item != NULL && cJSON_IsTrue(item)`. -/
def cjson_is_true : Option jval → Bool
  | some (.jbool b) => b
  | _ => false

/-- The `valuestring` field of a string item. -/
def jval_string : Option jval → String
  | some (.jstr s) => s
  | _ => ""

/-- The `valuedouble` field of a numeric item (time_t-valued here). -/
def jval_number : Option jval → Int
  | some (.jnum n) => n
  | _ => 0

/-- The `load_cache_from_file` from ps5_detector.c: absent/unparsable file is
cache-invalid; `ip` and `mac` must be strings and `last_seen` a number or
the file is cache-invalid; `online` is read with
`online_item != NULL && cJSON_IsTrue(online_item)` (no structural
requirement); finally a record older than `PS5_CACHE_MAX_AGE` is
cache-invalid (the out structure is filled regardless). -/
def load_cache_from_file (file : cache_file) (now : Int) : Int × ps5_info :=
  match file with
  | none => (PS5_DETECT_ERROR_CACHE_INVALID, ps5_info_zero)
  | some obj =>
      let ip_item := jlookup obj "ip"
      let mac_item := jlookup obj "mac"
      let last_seen_item := jlookup obj "last_seen"
      let online_item := jlookup obj "online"
      if ¬cjson_is_string ip_item ∨ ¬cjson_is_string mac_item ∨
          ¬cjson_is_number last_seen_item then
        (PS5_DETECT_ERROR_CACHE_INVALID, ps5_info_zero)
      else
        let info : ps5_info :=
          { ip := str_copy_trunc (jval_string ip_item) 15
            mac := str_copy_trunc (jval_string mac_item) 17
            last_seen := jval_number last_seen_item
            online := cjson_is_true online_item }
        if now - info.last_seen > PS5_CACHE_MAX_AGE then
          (PS5_DETECT_ERROR_CACHE_INVALID, info)
        else (PS5_DETECT_OK, info)

/-- The `save_cache_to_file` from ps5_detector.c: the JSON object written to
the cache file (filesystem write failures are environment conditions
outside the model). -/
def save_cache_to_file (info : ps5_info) : List (String × jval) :=
  [("ip", .jstr info.ip), ("mac", .jstr info.mac),
   ("last_seen", .jnum info.last_seen), ("online", .jbool info.online)]

/-- The `ps5_detector_get_cached` from ps5_detector.c: not-initialized and
NULL-out-parameter guards, then `load_cache_from_file`. -/
def ps5_detector_get_cached (initialized : Bool) (info_valid : Bool)
    (file : cache_file) (now : Int) : Int × ps5_info :=
  if ¬initialized then (PS5_DETECT_ERROR_NOT_INIT, ps5_info_zero)
  else if ¬info_valid then (PS5_DETECT_ERROR_INVALID_PARAM, ps5_info_zero)
  else load_cache_from_file file now

/-! Section: spec-side transition table (for the refinement claim on update) -/

/-- Written from the spec's transition table (spec section 4.4, priority
order top to bottom; "unmatched conditions leave the state unchanged"):
the state one tick of `update()` must move the context to. -/
def spec_transition_table (ctx : server_context) : server_state :=
  match ctx.current_state with
  | .init => .monitoring
  | .monitoring =>
      if ctx.ps5_power = .on then .ps5_detected
      else if ctx.client_count > 0 then .client_connected
      else if ctx.error_count > 5 then .error
      else .monitoring
  | .ps5_detected =>
      if ctx.ps5_power ≠ .on then .monitoring
      else if ctx.client_count > 0 then .client_connected
      else .ps5_detected
  | .client_connected =>
      if ctx.wake_requested ∧ ctx.ps5_power ≠ .on then .waking_ps5
      else if ctx.client_count = 0 ∧ ctx.ps5_power = .on then .ps5_detected
      else if ctx.client_count = 0 ∧ ctx.ps5_power ≠ .on then .monitoring
      else .client_connected
  | .waking_ps5 =>
      if ctx.wake_completed then .client_connected
      else if ctx.error_count > 3 then .error
      else .waking_ps5
  | .error =>
      if ctx.error_count = 0 then .init
      else .error

/-! Section: the spec section-8 FSM scenario, as a concrete trace -/

/-- Configuration used to run the scenario (spec section 6 defaults). -/
def scenario_config : server_config :=
  { ws_port := 8080
    ps5_subnet := "192.168.1.0/24"
    cache_path := "/var/run/gaming/ps5_cache.json" }

/-- Scenario start: freshly created context (state Init). -/
def scenario_ctx0 : server_context := (server_sm_create scenario_config).1

/-- Scenario after one tick (expected Monitoring). -/
def scenario_ctx1 : server_context := (server_sm_update scenario_ctx0).1

/-- Scenario after injecting power=On and ticking (expected PS5Detected). -/
def scenario_ctx2 : server_context :=
  (server_sm_update (server_sm_on_ps5_power_changed scenario_ctx1 .on).1).1

/-- Scenario after one client connects and a tick (expected ClientConnected). -/
def scenario_ctx3 : server_context :=
  (server_sm_update (server_sm_on_client_connected scenario_ctx2 1).1).1

/-- Scenario after the power goes off again (the spec's "power still off"
at the wake request) and a wake request is received, then a tick
(expected WakingPS5). -/
def scenario_ctx4 : server_context :=
  (server_sm_update
    (server_sm_on_wake_requested
      (server_sm_on_ps5_power_changed scenario_ctx3 .off).1).1).1

/-- Scenario after wake-completed(true) and a tick (expected
ClientConnected with both wake flags cleared). -/
def scenario_ctx5 : server_context :=
  (server_sm_update (server_sm_on_wake_completed scenario_ctx4 true).1).1

/-! Section: claim theorems for the orchestrator -/

/-- C1: `server_sm_update` implements the priority-ordered transition
table: one tick moves every context to exactly the state the spec table
prescribes; when the table prescribes no change the tick leaves the
context (and the effect trace) untouched; the WakingPS5 wake-completed
transition clears both wake flags; and the section-8 scenario visits
Init, Monitoring, PS5Detected, ClientConnected, WakingPS5 and returns to
ClientConnected with both wake flags cleared. -/
theorem server_sm_update_implements_transition_table :
    (∀ ctx : server_context,
      (server_sm_update ctx).1.current_state = spec_transition_table ctx) ∧
    (∀ ctx : server_context,
      spec_transition_table ctx = ctx.current_state →
        server_sm_update ctx = (ctx, [])) ∧
    (∀ ctx : server_context,
      ctx.current_state = .waking_ps5 → ctx.wake_completed = true →
        (server_sm_update ctx).1.current_state = .client_connected ∧
        (server_sm_update ctx).1.wake_completed = false ∧
        (server_sm_update ctx).1.wake_requested = false) ∧
    (scenario_ctx0.current_state = .init ∧
     scenario_ctx1.current_state = .monitoring ∧
     scenario_ctx2.current_state = .ps5_detected ∧
     scenario_ctx3.current_state = .client_connected ∧
     scenario_ctx4.current_state = .waking_ps5 ∧
     scenario_ctx5.current_state = .client_connected ∧
     scenario_ctx5.wake_completed = false ∧
     scenario_ctx5.wake_requested = false) := by
  refine ⟨?_, ?_, ?_, ?_⟩
  · intro ctx
    obtain ⟨cfg, cs, ls, pw, nw, cc, wr, wc, ec, cb⟩ := ctx
    cases cs <;>
      simp only [server_sm_update, spec_transition_table, server_sm_transition] <;>
      split_ifs <;> simp_all
  · intro ctx h
    obtain ⟨cfg, cs, ls, pw, nw, cc, wr, wc, ec, cb⟩ := ctx
    cases cs <;>
      simp only [server_sm_update, spec_transition_table, server_sm_transition] at h ⊢ <;>
      split_ifs at h ⊢ <;> simp_all
  · intro ctx h1 h2
    obtain ⟨cfg, cs, ls, pw, nw, cc, wr, wc, ec, cb⟩ := ctx
    simp only at h1
    subst h1
    simp only at h2
    subst h2
    simp [server_sm_update, server_sm_transition]
  · refine ⟨rfl, rfl, rfl, rfl, rfl, rfl, rfl, rfl⟩

/-- C1 witness: the no-change and flag-clearing clauses applied at
concrete contexts. -/
theorem server_sm_update_implements_transition_table_witness :
    (server_sm_update
      { scenario_ctx0 with current_state := .monitoring } =
      ({ scenario_ctx0 with current_state := .monitoring }, [])) ∧
    ((server_sm_update
      { scenario_ctx0 with current_state := .waking_ps5, wake_completed := true
      }).1.current_state = .client_connected) := by
  constructor
  · exact server_sm_update_implements_transition_table.2.1
      { scenario_ctx0 with current_state := .monitoring } (by decide)
  · exact (server_sm_update_implements_transition_table.2.2.1
      { scenario_ctx0 with current_state := .waking_ps5, wake_completed := true }
      rfl rfl).1

/-- A concrete context in WakingPS5 awaiting the wake outcome, used to
refute the claim that the wake-completed event always sets the flag. -/
def wake_failure_ctx : server_context :=
  { config := scenario_config
    current_state := .waking_ps5
    last_state := .client_connected
    ps5_power := .off
    ps5_network := .unknown
    client_count := 1
    wake_requested := true
    wake_completed := false
    error_count := 0
    on_state_enter := none }

/-- C3 counterexample: after a wake-completed event with a failure
outcome, the wakeCompleted flag is NOT set — `server_sm_on_wake_completed`
assigns the reported outcome to the flag, so a failure leaves it false
(and the next update tick in WakingPS5 does not take the wakeCompleted
transition; the context stays in WakingPS5). -/
theorem wake_completed_failure_flag_not_set :
    (server_sm_on_wake_completed wake_failure_ctx false).1.wake_completed = false ∧
    (server_sm_update (server_sm_on_wake_completed wake_failure_ctx false).1).1.current_state
      = .waking_ps5 := by
  constructor <;> rfl

/-- C3 (amended): the wake-completed event assigns the reported outcome to
the wakeCompleted flag (true on success, false on failure), increments
errorCount exactly when the outcome is failure, mutates no other field,
and performs no transition and no side effect. -/
theorem wake_completed_event_characterization :
    ∀ (ctx : server_context) (success : Bool),
      server_sm_on_wake_completed ctx success =
        ({ ctx with
            wake_completed := success
            error_count := ctx.error_count + (if success then 0 else 1) }, []) := by
  intro ctx success
  cases success <;> simp [server_sm_on_wake_completed]

/-- C9: every event operation of the orchestrator leaves the current and
previous state fields unchanged and produces no effect (no indicator
update, no state-enter callback): transitions happen only inside
`server_sm_update`. -/
theorem event_operations_preserve_state :
    ∀ (ctx : server_context) (power : ps5_power_state)
      (status : ps5_network_status) (id : Int) (success : Bool),
      ((server_sm_on_ps5_power_changed ctx power).1.current_state = ctx.current_state ∧
       (server_sm_on_ps5_power_changed ctx power).1.last_state = ctx.last_state ∧
       (server_sm_on_ps5_power_changed ctx power).2 = []) ∧
      ((server_sm_on_ps5_network_changed ctx status).1.current_state = ctx.current_state ∧
       (server_sm_on_ps5_network_changed ctx status).1.last_state = ctx.last_state ∧
       (server_sm_on_ps5_network_changed ctx status).2 = []) ∧
      ((server_sm_on_client_connected ctx id).1.current_state = ctx.current_state ∧
       (server_sm_on_client_connected ctx id).1.last_state = ctx.last_state ∧
       (server_sm_on_client_connected ctx id).2 = []) ∧
      ((server_sm_on_client_disconnected ctx id).1.current_state = ctx.current_state ∧
       (server_sm_on_client_disconnected ctx id).1.last_state = ctx.last_state ∧
       (server_sm_on_client_disconnected ctx id).2 = []) ∧
      ((server_sm_on_wake_requested ctx).1.current_state = ctx.current_state ∧
       (server_sm_on_wake_requested ctx).1.last_state = ctx.last_state ∧
       (server_sm_on_wake_requested ctx).2 = []) ∧
      ((server_sm_on_wake_completed ctx success).1.current_state = ctx.current_state ∧
       (server_sm_on_wake_completed ctx success).1.last_state = ctx.last_state ∧
       (server_sm_on_wake_completed ctx success).2 = []) ∧
      ((server_sm_on_error ctx).1.current_state = ctx.current_state ∧
       (server_sm_on_error ctx).1.last_state = ctx.last_state ∧
       (server_sm_on_error ctx).2 = []) := by
  intro ctx power status id success
  refine ⟨⟨rfl, rfl, rfl⟩, ⟨rfl, rfl, rfl⟩, ⟨rfl, rfl, rfl⟩, ⟨?_, ?_, rfl⟩,
          ⟨rfl, rfl, rfl⟩, ⟨?_, ?_, rfl⟩, ⟨rfl, rfl, rfl⟩⟩
  · simp only [server_sm_on_client_disconnected]
    split <;> rfl
  · simp only [server_sm_on_client_disconnected]
    split <;> rfl
  · cases success <;> rfl
  · cases success <;> rfl

/-- C10: every Option-lifted public state-machine operation is a no-op on
a NULL (none) context — it returns the NULL context and produces no
effect — and `server_sm_get_state` returns the Error state for NULL. -/
theorem null_context_tolerated :
    ∀ (new_state : server_state) (power : ps5_power_state)
      (status : ps5_network_status) (id : Int) (success : Bool)
      (callback : Option Nat),
      server_sm_update_opt none = (none, []) ∧
      server_sm_transition_opt none new_state = (none, []) ∧
      server_sm_reset_opt none = (none, []) ∧
      server_sm_on_ps5_power_changed_opt none power = (none, []) ∧
      server_sm_on_ps5_network_changed_opt none status = (none, []) ∧
      server_sm_on_client_connected_opt none id = (none, []) ∧
      server_sm_on_client_disconnected_opt none id = (none, []) ∧
      server_sm_on_wake_requested_opt none = (none, []) ∧
      server_sm_on_wake_completed_opt none success = (none, []) ∧
      server_sm_on_error_opt none = (none, []) ∧
      server_sm_set_state_callback_opt none callback = (none, []) ∧
      server_sm_get_state_opt none = .error := by
  intro new_state power status id success callback
  exact ⟨rfl, rfl, rfl, rfl, rfl, rfl, rfl, rfl, rfl, rfl, rfl, rfl⟩

/-! Section: claim theorems for the wake controller -/

/-- C2: evaluation of `ps5_wake_verify` at the divergent input.  With an
initialized controller and a valid out-parameter, a queried platform
state of Standby makes the code return 0 (success) while writing Standby
through the out-parameter — the spec (and the header contract "0 if PS5
is ON, negative error code otherwise") requires a failure report here.
The On, Off and Unknown branches behave as specified, and the out
parameter is written in every queried branch. -/
theorem ps5_wake_verify_standby_reports_success :
    ps5_wake_verify true true .standby = (0, some .standby) ∧
    ps5_wake_verify true true .on = (0, some .on) ∧
    ps5_wake_verify true true .off = (-1, some .off) ∧
    ps5_wake_verify true true .unknown = (-1, some .unknown) ∧
    ps5_wake_verify false true .standby = (-1, none) := by
  exact ⟨rfl, rfl, rfl, rfl, rfl⟩

/-- C4: `ps5_wake_send` performs sequential attempts bounded by
`WAKE_MAX_RETRIES` = 3.  If the platform fails on every attempt, exactly
3 attempts are made, the callback is invoked exactly once with `false`,
the retry counter is left at 3, and the caller receives -1.  If attempt
`i` is the first to succeed, `i+1` attempts are made, the timestamp is
recorded, the retry counter is reset to 0, the callback is invoked
exactly once with `true`, and the caller receives 0. -/
theorem ps5_wake_send_bounded_retries :
    ∀ (ctx : ps5_wake_context) (now : Nat) (outcomes : Nat → Bool),
      ctx.initialized = true →
      ((∀ i, i < WAKE_MAX_RETRIES → outcomes i = false) →
          ps5_wake_send ctx now outcomes =
            ⟨-1, { ctx with retry_count := 3 }, [false], 3⟩) ∧
      (∀ i, i < WAKE_MAX_RETRIES → outcomes i = true →
          (∀ j, j < i → outcomes j = false) →
          ps5_wake_send ctx now outcomes =
            ⟨0, { ctx with last_wake_time := some now, retry_count := 0 },
             [true], i + 1⟩) := by
  intro ctx now outcomes hinit
  constructor
  · intro hall
    have h0 := hall 0 (by simp [WAKE_MAX_RETRIES])
    have h1 := hall 1 (by simp [WAKE_MAX_RETRIES])
    have h2 := hall 2 (by simp [WAKE_MAX_RETRIES])
    simp [ps5_wake_send, ps5_wake_send_loop, hinit, h0, h1, h2, WAKE_MAX_RETRIES]
  · intro i hi hsucc hbefore
    simp only [WAKE_MAX_RETRIES] at hi
    interval_cases i
    · simp [ps5_wake_send, ps5_wake_send_loop, hinit, hsucc, WAKE_MAX_RETRIES]
    · have h0 := hbefore 0 (by omega)
      simp [ps5_wake_send, ps5_wake_send_loop, hinit, h0, hsucc, WAKE_MAX_RETRIES]
    · have h0 := hbefore 0 (by omega)
      have h1 := hbefore 1 (by omega)
      simp [ps5_wake_send, ps5_wake_send_loop, hinit, h0, h1, hsucc, WAKE_MAX_RETRIES]

/-- C4 witness: the always-failing platform and a first-attempt success,
at a concrete initialized controller. -/
theorem ps5_wake_send_bounded_retries_witness :
    ps5_wake_send ⟨true, 0, none⟩ 7 (fun _ => false) =
      ⟨-1, ⟨true, 3, none⟩, [false], 3⟩ ∧
    ps5_wake_send ⟨true, 0, none⟩ 7 (fun _ => true) =
      ⟨0, ⟨true, 0, some 7⟩, [true], 1⟩ := by
  constructor
  · exact (ps5_wake_send_bounded_retries ⟨true, 0, none⟩ 7 (fun _ => false) rfl).1
      (fun i _ => rfl)
  · exact (ps5_wake_send_bounded_retries ⟨true, 0, none⟩ 7 (fun _ => true) rfl).2
      0 (by simp [WAKE_MAX_RETRIES]) rfl (fun j hj => by omega)

/-! Section: claim theorems for the power monitor -/

/-- C5: the monitor's change callback fires exactly when the newly
published value differs from the previously published value, and then it
carries the new value (first clause, as one equation on the poll step);
a successful poll equal to the cached value only resets the error counter
and fires nothing (second clause); from a non-Unknown published state
with a clean error counter, 5 consecutive failed polls degrade the
published state to Unknown firing the callback exactly once (third
clause), and a 6th consecutive failure fires no additional callback
(fourth clause). -/
theorem monitor_callback_iff_published_change :
    (∀ (ctx : cec_monitor_context) (now : Nat) (r : ps5_power_state),
       (monitor_poll_step ctx now r).2 =
         (if (monitor_poll_step ctx now r).1.current_state = ctx.current_state
          then none
          else some (monitor_poll_step ctx now r).1.current_state)) ∧
    (∀ (ctx : cec_monitor_context) (now : Nat) (r : ps5_power_state),
       r ≠ .unknown → r = ctx.current_state →
         monitor_poll_step ctx now r = ({ ctx with consecutive_errors := 0 }, none)) ∧
    (∀ (ctx : cec_monitor_context) (t1 t2 t3 t4 t5 : Nat),
       ctx.consecutive_errors = 0 → ctx.current_state ≠ .unknown →
         monitor_run ctx
           [(t1, .unknown), (t2, .unknown), (t3, .unknown), (t4, .unknown),
            (t5, .unknown)] =
           (⟨.unknown, ctx.current_state, t5, 5⟩, [.unknown])) ∧
    (∀ (ctx : cec_monitor_context) (t1 t2 t3 t4 t5 t6 : Nat),
       ctx.consecutive_errors = 0 → ctx.current_state ≠ .unknown →
         monitor_run ctx
           [(t1, .unknown), (t2, .unknown), (t3, .unknown), (t4, .unknown),
            (t5, .unknown), (t6, .unknown)] =
           (⟨.unknown, ctx.current_state, t5, 6⟩, [.unknown])) := by
  refine ⟨?_, ?_, ?_, ?_⟩
  · intro ctx now r
    obtain ⟨cur, last, t, errs⟩ := ctx
    cases r <;>
      simp only [monitor_poll_step, change_ps5_state, CEC_MAX_CONSECUTIVE_ERRORS] <;>
      split_ifs <;> simp_all
  · intro ctx now r hr hcur
    obtain ⟨cur, last, t, errs⟩ := ctx
    subst hcur
    cases r <;> simp_all [monitor_poll_step]
  · intro ctx t1 t2 t3 t4 t5 herr hcur
    obtain ⟨cur, last, t, errs⟩ := ctx
    simp only at herr hcur
    subst herr
    have hcur2 : ¬(ps5_power_state.unknown = cur) := fun h => hcur h.symm
    simp [monitor_run, monitor_poll_step, change_ps5_state,
          CEC_MAX_CONSECUTIVE_ERRORS, hcur, hcur2]
  · intro ctx t1 t2 t3 t4 t5 t6 herr hcur
    obtain ⟨cur, last, t, errs⟩ := ctx
    simp only at herr hcur
    subst herr
    have hcur2 : ¬(ps5_power_state.unknown = cur) := fun h => hcur h.symm
    simp [monitor_run, monitor_poll_step, change_ps5_state,
          CEC_MAX_CONSECUTIVE_ERRORS, hcur, hcur2]

/-- C5 witness: the equal-poll, 5-failure and 6-failure clauses applied
at a concrete monitor context publishing On. -/
theorem monitor_callback_iff_published_change_witness :
    monitor_poll_step ⟨.on, .unknown, 0, 2⟩ 9 .on = (⟨.on, .unknown, 0, 0⟩, none) ∧
    monitor_run ⟨.on, .unknown, 0, 0⟩
      [(1, .unknown), (2, .unknown), (3, .unknown), (4, .unknown), (5, .unknown)] =
      (⟨.unknown, .on, 5, 5⟩, [.unknown]) ∧
    monitor_run ⟨.on, .unknown, 0, 0⟩
      [(1, .unknown), (2, .unknown), (3, .unknown), (4, .unknown), (5, .unknown),
       (6, .unknown)] =
      (⟨.unknown, .on, 5, 6⟩, [.unknown]) := by
  refine ⟨?_, ?_, ?_⟩
  · exact monitor_callback_iff_published_change.2.1 ⟨.on, .unknown, 0, 2⟩ 9 .on
      (by decide) rfl
  · exact monitor_callback_iff_published_change.2.2.1 ⟨.on, .unknown, 0, 0⟩
      1 2 3 4 5 rfl (by decide)
  · exact monitor_callback_iff_published_change.2.2.2 ⟨.on, .unknown, 0, 0⟩
      1 2 3 4 5 6 rfl (by decide)

/-! Section: claim theorems for the presence cache -/

/-- Written from the claim's words (C6): the cache is invalid iff the
file is absent, unparsable, structurally incomplete with respect to the
four required fields ip (string), mac (string), last_seen (number),
online (boolean), or more than `PS5_CACHE_MAX_AGE` seconds old. -/
def claim_cache_invalid (file : cache_file) (now : Int) : Bool :=
  match file with
  | none => true
  | some obj =>
      if ¬cjson_is_string (jlookup obj "ip") ∨
          ¬cjson_is_string (jlookup obj "mac") ∨
          ¬cjson_is_number (jlookup obj "last_seen") ∨
          ¬cjson_is_bool (jlookup obj "online") then true
      else decide (now - jval_number (jlookup obj "last_seen") > PS5_CACHE_MAX_AGE)

/-- The cache-invalid condition the code actually implements: as the
claim's, except that the `online` field is not required (a missing or
non-boolean `online` is read as false, not rejected). -/
def code_cache_invalid (file : cache_file) (now : Int) : Bool :=
  match file with
  | none => true
  | some obj =>
      if ¬cjson_is_string (jlookup obj "ip") ∨
          ¬cjson_is_string (jlookup obj "mac") ∨
          ¬cjson_is_number (jlookup obj "last_seen") then true
      else decide (now - jval_number (jlookup obj "last_seen") > PS5_CACHE_MAX_AGE)

/-- The record `load_cache_from_file` assembles from a structurally
acceptable object (strings truncated to the ps5_info_t field sizes,
`online` read with cJSON_IsTrue). -/
def parse_cache_record (obj : List (String × jval)) : ps5_info :=
  { ip := str_copy_trunc (jval_string (jlookup obj "ip")) 15
    mac := str_copy_trunc (jval_string (jlookup obj "mac")) 17
    last_seen := jval_number (jlookup obj "last_seen")
    online := cjson_is_true (jlookup obj "online") }

/-- A fresh cache file carrying ip, mac and last_seen but no `online`
field at all — structurally incomplete in the claim's sense. -/
def missing_online_file : cache_file :=
  some [("ip", .jstr "192.168.1.100"), ("mac", .jstr "aa:bb:cc:dd:ee:ff"),
        ("last_seen", .jnum 1000)]

/-- C6 counterexample: a cache file lacking the `online` field is
cache-invalid by the claim's structural-completeness condition, yet
`ps5_detector_get_cached` accepts it (returning the record with
online=false) rather than reporting the cache-invalid condition. -/
theorem get_cached_accepts_missing_online :
    claim_cache_invalid missing_online_file 1000 = true ∧
    ps5_detector_get_cached true true missing_online_file 1000 =
      (PS5_DETECT_OK, ⟨"192.168.1.100", "aa:bb:cc:dd:ee:ff", 1000, false⟩) := by
  constructor
  · rfl
  · rfl

/-- C6 (amended): on an initialized detector with a non-NULL out
parameter, `ps5_detector_get_cached` reports the cache-invalid condition
exactly when the file is absent/unparsable, lacks a string `ip`, a string
`mac` or a numeric `last_seen`, or is more than `PS5_CACHE_MAX_AGE`
seconds old (`online` is optional: missing or non-true reads as false);
otherwise it succeeds and returns the stored record. -/
theorem get_cached_characterization :
    ∀ (file : cache_file) (now : Int),
      ((ps5_detector_get_cached true true file now).1 =
          PS5_DETECT_ERROR_CACHE_INVALID ↔ code_cache_invalid file now = true) ∧
      (code_cache_invalid file now = false →
        ∃ obj, file = some obj ∧
          now - (parse_cache_record obj).last_seen ≤ PS5_CACHE_MAX_AGE ∧
          ps5_detector_get_cached true true file now =
            (PS5_DETECT_OK, parse_cache_record obj)) := by
  intro file now
  cases file with
  | none =>
      simp [ps5_detector_get_cached, load_cache_from_file, code_cache_invalid]
  | some obj =>
      constructor
      · simp only [ps5_detector_get_cached, load_cache_from_file, code_cache_invalid]
        split_ifs <;>
          simp_all [PS5_DETECT_OK, PS5_DETECT_ERROR_CACHE_INVALID]
      · intro h
        refine ⟨obj, rfl, ?_, ?_⟩ <;>
          · simp only [ps5_detector_get_cached, load_cache_from_file,
              code_cache_invalid, parse_cache_record] at h ⊢
            split_ifs at h ⊢ <;> simp_all

/-- C6 (amended) witness: the characterization applied to the concrete
incomplete-but-accepted file. -/
theorem get_cached_characterization_witness :
    (ps5_detector_get_cached true true missing_online_file 1000).1 =
        PS5_DETECT_ERROR_CACHE_INVALID ↔
      code_cache_invalid missing_online_file 1000 = true := by
  exact (get_cached_characterization missing_online_file 1000).1

/-- Truncation to `n` characters is the identity on strings of length at
most `n` (the ps5_info_t character arrays guarantee these bounds). -/
theorem str_copy_trunc_eq_self (s : String) (n : Nat) (h : s.data.length ≤ n) :
    str_copy_trunc s n = s := by
  unfold str_copy_trunc
  rw [List.take_of_length_le h]

/-- Field lookups on the object `save_cache_to_file` writes. -/
theorem jlookup_save_cache (info : ps5_info) :
    jlookup (save_cache_to_file info) "ip" = some (.jstr info.ip) ∧
    jlookup (save_cache_to_file info) "mac" = some (.jstr info.mac) ∧
    jlookup (save_cache_to_file info) "last_seen" = some (.jnum info.last_seen) ∧
    jlookup (save_cache_to_file info) "online" = some (.jbool info.online) := by
  exact ⟨rfl, rfl, rfl, rfl⟩

/-- C7: cache round-trip.  Saving any presence record (whose fields fit
the ps5_info_t character arrays: at most 15 ip and 17 mac characters) and
reading it back while `now - last_seen ≤ PS5_CACHE_MAX_AGE` succeeds and
returns a record equal to the saved one in all four fields; once more
than `PS5_CACHE_MAX_AGE` seconds have elapsed past last_seen, the read
reports the cache-invalid condition. -/
theorem cache_round_trip :
    ∀ (info : ps5_info) (now : Int),
      info.ip.data.length ≤ 15 → info.mac.data.length ≤ 17 →
      (now - info.last_seen ≤ PS5_CACHE_MAX_AGE →
        ps5_detector_get_cached true true (some (save_cache_to_file info)) now =
          (PS5_DETECT_OK, info)) ∧
      (now - info.last_seen > PS5_CACHE_MAX_AGE →
        (ps5_detector_get_cached true true (some (save_cache_to_file info)) now).1 =
          PS5_DETECT_ERROR_CACHE_INVALID) := by
  intro info now hip hmac
  obtain ⟨hl1, hl2, hl3, hl4⟩ := jlookup_save_cache info
  constructor
  · intro hfresh
    have hgt : ¬(now - info.last_seen > PS5_CACHE_MAX_AGE) := by omega
    simp only [ps5_detector_get_cached, load_cache_from_file,
      hl1, hl2, hl3, hl4, cjson_is_string, cjson_is_number, cjson_is_true,
      jval_string, jval_number]
    rw [str_copy_trunc_eq_self _ _ hip, str_copy_trunc_eq_self _ _ hmac]
    simp [hgt]
  · intro hstale
    simp only [ps5_detector_get_cached, load_cache_from_file,
      hl1, hl2, hl3, hl4, cjson_is_string, cjson_is_number, cjson_is_true,
      jval_string, jval_number]
    simp [hstale]

/-- C7 witness: the round trip at a concrete record, fresh and stale. -/
theorem cache_round_trip_witness :
    ps5_detector_get_cached true true
        (some (save_cache_to_file ⟨"192.168.1.100", "aa:bb:cc:dd:ee:ff", 1000, true⟩))
        2000 =
      (PS5_DETECT_OK, ⟨"192.168.1.100", "aa:bb:cc:dd:ee:ff", 1000, true⟩) ∧
    (ps5_detector_get_cached true true
        (some (save_cache_to_file ⟨"192.168.1.100", "aa:bb:cc:dd:ee:ff", 1000, true⟩))
        5000).1 =
      PS5_DETECT_ERROR_CACHE_INVALID := by
  constructor
  · exact (cache_round_trip ⟨"192.168.1.100", "aa:bb:cc:dd:ee:ff", 1000, true⟩ 2000
      (by decide) (by decide)).1 (by decide)
  · exact (cache_round_trip ⟨"192.168.1.100", "aa:bb:cc:dd:ee:ff", 1000, true⟩ 5000
      (by decide) (by decide)).2 (by decide)

/-! Section: spec-side format predicates for the validators (C8) -/

/-- Split a character list at every '.' (the dot-separated fields of the
claim; empty fields witness leading/trailing/extra separators). -/
def split_dots : List Char → List (List Char)
  | [] => [[]]
  | c :: cs =>
      if c = '.' then [] :: split_dots cs
      else
        match split_dots cs with
        | p :: ps => (c :: p) :: ps
        | [] => [[c]]

/-- Decimal value accumulated over `p` starting from `a` (the loop's
`current_octet = current_octet * 10 + (*p - '0')`; the character '0'
is 48). -/
def merge_val (a : Nat) (p : List Char) : Nat :=
  p.foldl (fun x c => x * 10 + (c.toNat - 48)) a

/-- Decimal value of one field. -/
def octet_val (p : List Char) : Nat := merge_val 0 p

/-- Written from the claim as amended: a decimal octet is a non-empty
field of one to three decimal digits whose value is at most 255. -/
def is_octet (p : List Char) : Bool :=
  decide (p ≠ []) && decide (p.length ≤ 3) && p.all Char.isDigit &&
  decide (octet_val p ≤ 255)

/-- Written from the claim verbatim (no bound on the number of digits):
a non-empty all-digit field whose value is at most 255. -/
def is_octet_value_only (p : List Char) : Bool :=
  decide (p ≠ []) && p.all Char.isDigit && decide (octet_val p ≤ 255)

/-- Written from the claim as amended: exactly four dot-separated decimal
octets (one to three digits each, value in [0,255]), with no leading,
trailing, or extra separators (those produce empty fields). -/
def validate_ip_claim (ip : String) : Bool :=
  decide ((split_dots ip.data).length = 4) && (split_dots ip.data).all is_octet

/-- Written from the claim verbatim: four dot-separated decimal fields
each with value in [0,255], digits unconstrained. -/
def validate_ip_claim_value_only (ip : String) : Bool :=
  decide ((split_dots ip.data).length = 4) &&
  (split_dots ip.data).all is_octet_value_only

/-- Written from the claim: exactly 17 characters, colons at positions
2, 5, 8, 11 and 14, hexadecimal digits at every other position. -/
def validate_mac_claim (mac : String) : Bool :=
  mac.data.length = 17 &&
  (List.range 17).all (fun i =>
    match mac.data.get? i with
    | some c =>
        if i = 2 ∨ i = 5 ∨ i = 8 ∨ i = 11 ∨ i = 14 then c = ':' else is_xdigit c
    | none => false)

/-- Final acceptance test of `ps5_detector_validate_ip` after the
character loop. -/
def ip_finalize : Option ip_scan_state → Bool
  | none => false
  | some st =>
      if !st.has_digit || st.digits = 0 || st.digits > 3 || st.current_octet > 255 then
        false
      else decide (st.octet_count = 3)

/-- Acceptance of the remaining dot-separated fields, resuming a scan
whose current field already accumulated value `cur` over `dg` digits with
`oc` completed octets: the head field extends the current octet (checked
at the following dot or at the end of input), later fields are full
octets. -/
def parts_ok (cur dg oc : Nat) : List (List Char) → Bool
  | [] => false
  | [p] =>
      p.all Char.isDigit && decide (merge_val cur p ≤ 255) &&
      decide (dg + p.length ≠ 0) && decide (dg + p.length ≤ 3) &&
      decide (oc = 3)
  | p :: ps =>
      p.all Char.isDigit && decide (merge_val cur p ≤ 255) &&
      decide (dg + p.length ≠ 0) && decide (dg + p.length ≤ 3) &&
      decide (oc < 3) && parts_ok 0 0 (oc + 1) ps

/-- The splitter never returns an empty list of fields. -/
theorem split_dots_ne_nil (cs : List Char) : split_dots cs ≠ [] := by
  induction cs with
  | nil => simp [split_dots]
  | cons c cs ih =>
      simp only [split_dots]
      split_ifs
      · simp
      · cases h : split_dots cs <;> simp

/-- Unfolding `merge_val` over a first character. -/
theorem merge_val_cons (a : Nat) (c : Char) (p : List Char) :
    merge_val a (c :: p) = merge_val (a * 10 + (c.toNat - 48)) p := rfl

/-- The accumulated decimal value never decreases: once the running octet
value exceeds 255, the final value does too. -/
theorem le_merge_val (p : List Char) : ∀ a : Nat, a ≤ merge_val a p := by
  induction p with
  | nil => intro a; exact Nat.le_refl a
  | cons c p ih =>
      intro a
      rw [merge_val_cons]
      exact le_trans (by omega) (ih (a * 10 + (c.toNat - 48)))

/-- The character loop of `ps5_detector_validate_ip`, resumed from an
arbitrary reachable scan state, accepts exactly when the remaining
dot-separated fields are acceptable continuations (`parts_ok`). -/
theorem ip_scan_parts_ok :
    ∀ (cs : List Char) (oc cur dg : Nat),
      cur ≤ 255 →
      ip_finalize (ip_scan ⟨oc, cur, dg, decide (dg ≠ 0)⟩ cs) =
        parts_ok cur dg oc (split_dots cs) := by
  intro cs
  induction cs with
  | nil =>
      intro oc cur dg hcur
      have hc255 : ¬(cur > 255) := by omega
      simp only [ip_scan, ip_finalize, split_dots, parts_ok, merge_val,
        List.foldl_nil, List.all_nil, List.length_nil, Nat.add_zero]
      by_cases h1 : dg = 0 <;> by_cases h2 : dg > 3 <;> by_cases h3 : oc = 3 <;>
        simp_all
  | cons c cs ih =>
      intro oc cur dg hcur
      by_cases hdot : c = '.'
      · subst hdot
        obtain ⟨p, ps, hsd⟩ : ∃ p ps, split_dots cs = p :: ps := by
          cases h : split_dots cs with
          | nil => exact absurd h (split_dots_ne_nil cs)
          | cons p ps => exact ⟨p, ps, rfl⟩
        have hstep : split_dots ('.' :: cs) = [] :: p :: ps := by
          simp [split_dots, hsd]
        rw [hstep]
        by_cases h1 : dg = 0
        · have hstepv : ip_scan_step ⟨oc, cur, dg, decide (dg ≠ 0)⟩ '.' = none := by
            simp [ip_scan_step, h1]
          have hscan : ip_scan ⟨oc, cur, dg, decide (dg ≠ 0)⟩ ('.' :: cs) = none := by
            show (match ip_scan_step ⟨oc, cur, dg, decide (dg ≠ 0)⟩ '.' with
                  | none => none
                  | some st1 => ip_scan st1 cs) = none
            rw [hstepv]
          rw [hscan]
          simp [ip_finalize, parts_ok, h1]
        · by_cases h2 : dg > 3
          · have hstepv : ip_scan_step ⟨oc, cur, dg, decide (dg ≠ 0)⟩ '.' = none := by
              simp [ip_scan_step, h1, h2]
            have hscan : ip_scan ⟨oc, cur, dg, decide (dg ≠ 0)⟩ ('.' :: cs) = none := by
              show (match ip_scan_step ⟨oc, cur, dg, decide (dg ≠ 0)⟩ '.' with
                    | none => none
                    | some st1 => ip_scan st1 cs) = none
              rw [hstepv]
            rw [hscan]
            have hd3 : ¬(dg ≤ 3) := by omega
            simp [ip_finalize, parts_ok, hd3]
          · by_cases h3 : oc ≥ 3
            · have hstepv : ip_scan_step ⟨oc, cur, dg, decide (dg ≠ 0)⟩ '.' = none := by
                simp [ip_scan_step, h1, h2, h3]
              have hscan : ip_scan ⟨oc, cur, dg, decide (dg ≠ 0)⟩ ('.' :: cs) = none := by
                show (match ip_scan_step ⟨oc, cur, dg, decide (dg ≠ 0)⟩ '.' with
                      | none => none
                      | some st1 => ip_scan st1 cs) = none
                rw [hstepv]
              rw [hscan]
              have h3n : ¬(oc < 3) := by omega
              simp [ip_finalize, parts_ok, h3n]
            · have hoc : oc < 3 := by omega
              have hd3 : dg ≤ 3 := by omega
              have hc255 : ¬(cur > 255) := by omega
              have hstepv : ip_scan_step ⟨oc, cur, dg, decide (dg ≠ 0)⟩ '.' =
                  some ⟨oc + 1, 0, 0, false⟩ := by
                simp [ip_scan_step, h1, h2, h3, hc255]
              have hscan : ip_scan ⟨oc, cur, dg, decide (dg ≠ 0)⟩ ('.' :: cs) =
                  ip_scan ⟨oc + 1, 0, 0, false⟩ cs := by
                show (match ip_scan_step ⟨oc, cur, dg, decide (dg ≠ 0)⟩ '.' with
                      | none => none
                      | some st1 => ip_scan st1 cs) = _
                rw [hstepv]
              have hrec := ih (oc + 1) 0 0 (by omega)
              rw [hsd] at hrec
              rw [show (decide ((0:Nat) ≠ 0)) = false by decide] at hrec
              rw [hscan, hrec]
              have hmv : merge_val cur [] ≤ 255 := hcur
              simp [parts_ok, h1, hd3, hoc, hmv]
      · by_cases hdig : c.isDigit
        · obtain ⟨p, ps, hsd⟩ : ∃ p ps, split_dots cs = p :: ps := by
            cases h : split_dots cs with
            | nil => exact absurd h (split_dots_ne_nil cs)
            | cons p ps => exact ⟨p, ps, rfl⟩
          have hstep : split_dots (c :: cs) = (c :: p) :: ps := by
            simp [split_dots, hdot, hsd]
          rw [hstep]
          by_cases hv : cur * 10 + (c.toNat - 48) > 255
          · have hstepv : ip_scan_step ⟨oc, cur, dg, decide (dg ≠ 0)⟩ c = none := by
              simp [ip_scan_step, hdot, hdig, hv]
            have hscan : ip_scan ⟨oc, cur, dg, decide (dg ≠ 0)⟩ (c :: cs) = none := by
              show (match ip_scan_step ⟨oc, cur, dg, decide (dg ≠ 0)⟩ c with
                    | none => none
                    | some st1 => ip_scan st1 cs) = none
              rw [hstepv]
            rw [hscan]
            have hbig : ¬(merge_val cur (c :: p) ≤ 255) := by
              rw [merge_val_cons]
              have := le_merge_val p (cur * 10 + (c.toNat - 48))
              omega
            cases ps with
            | nil => simp [ip_finalize, parts_ok, hbig]
            | cons q qs => simp [ip_finalize, parts_ok, hbig]
          · have hstepv : ip_scan_step ⟨oc, cur, dg, decide (dg ≠ 0)⟩ c =
                some ⟨oc, cur * 10 + (c.toNat - 48), dg + 1, true⟩ := by
              simp [ip_scan_step, hdot, hdig, hv]
            have hscan : ip_scan ⟨oc, cur, dg, decide (dg ≠ 0)⟩ (c :: cs) =
                ip_scan ⟨oc, cur * 10 + (c.toNat - 48), dg + 1, true⟩ cs := by
              show (match ip_scan_step ⟨oc, cur, dg, decide (dg ≠ 0)⟩ c with
                    | none => none
                    | some st1 => ip_scan st1 cs) = _
              rw [hstepv]
            have hrec := ih oc (cur * 10 + (c.toNat - 48)) (dg + 1) (by omega)
            rw [hsd] at hrec
            rw [show (decide (dg + 1 ≠ 0)) = true by simp] at hrec
            rw [hscan, hrec]
            cases ps with
            | nil =>
                simp only [parts_ok, merge_val_cons, List.all_cons, hdig,
                  Bool.true_and, List.length_cons]
                have e : dg + 1 + p.length = dg + (p.length + 1) := by omega
                rw [e]
            | cons q qs =>
                simp only [parts_ok, merge_val_cons, List.all_cons, hdig,
                  Bool.true_and, List.length_cons]
                have e : dg + 1 + p.length = dg + (p.length + 1) := by omega
                rw [e]
        · have hstepv : ip_scan_step ⟨oc, cur, dg, decide (dg ≠ 0)⟩ c = none := by
            simp [ip_scan_step, hdot, hdig]
          have hscan : ip_scan ⟨oc, cur, dg, decide (dg ≠ 0)⟩ (c :: cs) = none := by
            show (match ip_scan_step ⟨oc, cur, dg, decide (dg ≠ 0)⟩ c with
                  | none => none
                  | some st1 => ip_scan st1 cs) = none
            rw [hstepv]
          rw [hscan]
          obtain ⟨p, ps, hsd⟩ : ∃ p ps, split_dots cs = p :: ps := by
            cases h : split_dots cs with
            | nil => exact absurd h (split_dots_ne_nil cs)
            | cons p ps => exact ⟨p, ps, rfl⟩
          have hstep : split_dots (c :: cs) = (c :: p) :: ps := by
            simp [split_dots, hdot, hsd]
          rw [hstep]
          cases ps with
          | nil => simp [ip_finalize, parts_ok, hdig]
          | cons q qs => simp [ip_finalize, parts_ok, hdig]


/-- Pointwise-equal predicates give equal `List.all` results. -/
theorem all_congr_on_mem {α : Type} (l : List α) (f g : α → Bool)
    (h : ∀ a ∈ l, f a = g a) : l.all f = l.all g := by
  induction l with
  | nil => rfl
  | cons a l ih =>
      simp only [List.all_cons]
      rw [h a (by simp), ih (fun b hb => h b (by simp [hb]))]

/-- At the start of an octet, `parts_ok` is the amended-claim acceptance:
the total field count reaches four and every field is an octet. -/
theorem parts_ok_start :
    ∀ (parts : List (List Char)) (oc : Nat), parts ≠ [] →
      parts_ok 0 0 oc parts =
        (decide (oc + parts.length = 4) && parts.all is_octet) := by
  intro parts
  induction parts with
  | nil => intro oc h; exact absurd rfl h
  | cons p ps ih =>
      intro oc h
      cases ps with
      | nil =>
          rw [Bool.eq_iff_iff]
          simp only [parts_ok, is_octet, octet_val, List.all_cons, List.all_nil,
            List.length_cons, List.length_nil, Bool.and_true, Bool.and_eq_true,
            decide_eq_true_eq, Nat.zero_add, ne_eq, List.length_eq_zero]
          constructor <;> intro hh
          · obtain ⟨⟨⟨⟨hA, hB⟩, hC⟩, hD⟩, hE⟩ := hh
            exact ⟨by omega, ⟨⟨hC, hD⟩, hA⟩, hB⟩
          · obtain ⟨hE, ⟨⟨hC, hD⟩, hA⟩, hB⟩ := hh
            exact ⟨⟨⟨⟨hA, hB⟩, hC⟩, hD⟩, by omega⟩
      | cons q qs =>
          simp only [parts_ok]
          rw [ih (oc + 1) (by simp)]
          rw [Bool.eq_iff_iff]
          simp only [is_octet, octet_val, List.all_cons, List.length_cons,
            Bool.and_eq_true, decide_eq_true_eq, Nat.zero_add, ne_eq,
            List.length_eq_zero]
          constructor <;> intro hh
          · obtain ⟨⟨⟨⟨⟨hA, hB⟩, hC⟩, hD⟩, hE⟩, hF, hQ, hG⟩ := hh
            exact ⟨by omega, ⟨⟨⟨hC, hD⟩, hA⟩, hB⟩, hQ, hG⟩
          · obtain ⟨hF, ⟨⟨⟨hC, hD⟩, hA⟩, hB⟩, hQ, hG⟩ := hh
            exact ⟨⟨⟨⟨⟨hA, hB⟩, hC⟩, hD⟩, by omega⟩, by omega, hQ, hG⟩

/-- On a non-empty string, `ps5_detector_validate_ip` is the finalized
character scan. -/
theorem validate_ip_eq_finalize (ip : String) (h : ¬ip.data.length = 0) :
    ps5_detector_validate_ip ip = ip_finalize (ip_scan ⟨0, 0, 0, false⟩ ip.data) := by
  simp only [ps5_detector_validate_ip, h, if_false]
  cases hscan : ip_scan ⟨0, 0, 0, false⟩ ip.data with
  | none => simp [ip_finalize]
  | some st => simp [ip_finalize]

/-- The address validator decides exactly the (amended) claimed format. -/
theorem validate_ip_eq_claim (ip : String) :
    ps5_detector_validate_ip ip = validate_ip_claim ip := by
  by_cases hlen : ip.data.length = 0
  · have hnil : ip.data = [] := List.length_eq_zero.mp hlen
    simp [ps5_detector_validate_ip, validate_ip_claim, hlen, hnil, split_dots]
  · rw [validate_ip_eq_finalize ip hlen]
    have h := ip_scan_parts_ok ip.data 0 0 0 (by omega)
    rw [show (decide ((0:Nat) ≠ 0)) = false from rfl] at h
    rw [h, parts_ok_start _ 0 (split_dots_ne_nil ip.data)]
    simp [validate_ip_claim]

/-- The hardware-address validator decides exactly the claimed format. -/
theorem validate_mac_eq_claim (mac : String) :
    ps5_detector_validate_mac mac = validate_mac_claim mac := by
  simp only [ps5_detector_validate_mac, validate_mac_claim]
  congr 1

/-- C8 counterexample: the string "0000.1.2.3" is four dot-separated
decimal fields each with value in [0,255] (the first has value 0), yet
the validator rejects it — the character loop refuses any field written
with more than three digits, a constraint absent from the claim's
wording. -/
theorem validate_ip_rejects_four_digit_octet :
    ps5_detector_validate_ip "0000.1.2.3" = false ∧
    validate_ip_claim_value_only "0000.1.2.3" = true := by
  constructor <;> decide

/-- C8 (amended): the address validator accepts exactly the strings of
four dot-separated decimal octets, each written with one to three digits
and value in [0,255], with no leading, trailing, or extra separators; the
hardware-address validator accepts exactly the 17-character strings with
colons at positions 2, 5, 8, 11, 14 and hexadecimal digits elsewhere.
The spec's example vectors evaluate as claimed. -/
theorem validators_decide_claimed_formats :
    (∀ ip, ps5_detector_validate_ip ip = validate_ip_claim ip) ∧
    (∀ mac, ps5_detector_validate_mac mac = validate_mac_claim mac) ∧
    ps5_detector_validate_ip "192.168.1.1" = true ∧
    ps5_detector_validate_ip "192.168.1.256" = false ∧
    ps5_detector_validate_ip "1.2.3" = false ∧
    ps5_detector_validate_mac "aa:bb:cc:dd:ee:ff" = true ∧
    ps5_detector_validate_mac "aa:bb:cc:dd:ee:fg" = false ∧
    ps5_detector_validate_mac "aa:bb:cc:dd:ee:f" = false := by
  refine ⟨validate_ip_eq_claim, validate_mac_eq_claim, ?_, ?_, ?_, ?_, ?_, ?_⟩ <;>
    decide
